import Mathlib

/-!
A verification development for the eLENS miner system's document aggregation and
retrieval layer.  The Python modules `microservice/library/postgresql.py` (Document
Store / Repository) and `microservice/routes/documents.py` (Aggregation Orchestrator)
are shallowly embedded below: the mutable `PostgresQL` object becomes an explicit
`PgState` threaded through the operations, Python exceptions become `Except PyError`,
and each SQL statement issued by the code is given its PostgreSQL semantics on the
modelled relational state.
-/

set_option autoImplicit false

namespace ELens

/-- Python exceptions that the embedded code can raise.  `notConnected` is the
`Exception("The connection is not established")` raised by `execute`/`executemany`;
`invalidIds` is a psycopg2 statement failure (malformed or empty id tuple);
`indexError`, `keyError` and `typeError` are the corresponding Python built-ins. -/
inductive PyError
  | notConnected
  | invalidIds
  | indexError
  | keyError
  | typeError
deriving DecidableEq, Repr

/-- Column names of the rows handled by the repository.  `similarity` is the extra
key attached by the orchestrator's similar-documents join. -/
inductive Col
  | document_id
  | title
  | document_source
  | fulltext
  | fulltext_cleaned
  | abstract
  | date
  | entryintoforce
  | fulltextlink
  | sourcename
  | sourcelink
  | status
  | similarity
deriving DecidableEq, Repr

/-- Similarity scores are opaque pass-through values (floating point in the remote
JSON); the code never computes with them, it only copies them from the remote
`similarities` list into the response, so they are modelled by their serialized form. -/
abbrev Score := String

/-- A value stored under a key of a row mapping: SQL NULL / Python `None`, an integer
(`document_id`), a text field, or a similarity score attached by the orchestrator. -/
inductive FieldVal
  | vnull
  | vint (n : Int)
  | vstr (s : String)
  | vscore (x : Score)
deriving DecidableEq, Repr

/-- A row as returned by `PostgresQL.execute`: a Python dict from column name to
value, modelled as an association list in column order. -/
abbrev Row := List (Col × FieldVal)

/-- Modelled from the spec: one stored row of the `documents` table (scalar fields of
§3/§6 of the design; the SQL schema file itself is not under `src/`, only the
statements that read and write the table). -/
structure DocRow where
  document_id : Int
  title : Option String
  document_source : Option String
  fulltext : Option String
  fulltext_cleaned : Option String
  abstract : Option String
  date : Option String
  entryintoforce : Option String
  fulltextlink : Option String
  sourcename : Option String
  sourcelink : Option String
  status : Option String
deriving DecidableEq, Repr

/-- The child tables `document_authors`, `document_areas`, `document_keywords`,
`document_subjects`, `document_participants`. -/
inductive ChildTable
  | authors
  | areas
  | keywords
  | subjects
  | participants
deriving DecidableEq, Repr

/-- One cursor-level event: a single execution of a child-insert statement performed
inside `executemany` (one per row of parameters), or a `connection.commit()`. -/
inductive DbEvent
  | execChild (t : ChildTable) (row : Int × String)
  | commit
deriving DecidableEq, Repr

/-- The state of the `PostgresQL` object together with the modelled database.
`connected` is `self.cursor is not None`; `nextId` models the `document_id`
sequence; `trace` records cursor executions of `executemany` and commits. -/
structure PgState where
  connected : Bool
  documents : List DocRow
  document_authors : List (Int × String)
  document_areas : List (Int × String)
  document_keywords : List (Int × String)
  document_subjects : List (Int × String)
  document_participants : List (Int × String)
  nextId : Int
  trace : List DbEvent
deriving DecidableEq, Repr

/-- A parameter adapted by psycopg2 into a statement: a Python `str` token or an
`int` (the similar-documents route passes ids taken from remote JSON). -/
inductive SqlParam
  | pstr (s : String)
  | pint (n : Int)
deriving DecidableEq, Repr

/-- Python dict access `r[k]` modelled on the association list. -/
def lookupKey : Row → Col → Option FieldVal
  | [], _ => none
  | (k2, v2) :: rest, k => if k2 = k then some v2 else lookupKey rest k

/-- Python dict assignment `r[k] = v`: replaces the value in place if the key is
present, otherwise appends the new entry. -/
def setKey : Row → Col → FieldVal → Row
  | [], k, v => [(k, v)]
  | (k2, v2) :: rest, k, v =>
    if k2 = k then (k, v) :: rest else (k2, v2) :: setKey rest k v

/-- Python `r.pop(k)`: removes the entry; `KeyError` when the key is absent. -/
def popKey : Row → Col → Except PyError Row
  | [], _ => .error PyError.keyError
  | (k2, v2) :: rest, k =>
    if k2 = k then .ok rest
    else
      match popKey rest k with
      | .ok rest2 => .ok ((k2, v2) :: rest2)
      | .error e => .error e

/-- `None`-aware wrapping of a nullable text column into a row value. -/
def optV : Option String → FieldVal
  | none => FieldVal.vnull
  | some s => FieldVal.vstr s

/-- The dict built by `execute` for one `SELECT * FROM documents` result row
(column name to value, in column order). -/
def rowToMap (d : DocRow) : Row :=
  [(Col.document_id, FieldVal.vint d.document_id),
   (Col.title, optV d.title),
   (Col.document_source, optV d.document_source),
   (Col.fulltext, optV d.fulltext),
   (Col.fulltext_cleaned, optV d.fulltext_cleaned),
   (Col.abstract, optV d.abstract),
   (Col.date, optV d.date),
   (Col.entryintoforce, optV d.entryintoforce),
   (Col.fulltextlink, optV d.fulltextlink),
   (Col.sourcename, optV d.sourcename),
   (Col.sourcelink, optV d.sourcelink),
   (Col.status, optV d.status)]

/-- Python string slice `s[:500]`: the first 500 characters. -/
def pySlice500 (s : String) : String := ⟨s.data.take 500⟩

/-- Decimal digits of an integer literal, most significant first, with an
accumulator; any non-digit character makes the whole literal invalid. -/
def digitsToNatAux : List Char → Nat → Option Nat
  | [], acc => some acc
  | c :: rest, acc =>
    if c.isDigit then digitsToNatAux rest (acc * 10 + (c.toNat - 48)) else none

def digitsToNat (cs : List Char) : Option Nat :=
  if cs.isEmpty then none else digitsToNatAux cs 0

/-- PostgreSQL's cast of a string literal to `integer` (an optional leading minus
sign followed by at least one decimal digit), modelled on the character list. -/
def pgStrToInt (s : String) : Option Int :=
  match s.data with
  | '-' :: rest => (digitsToNat rest).map (fun n => -(n : Int))
  | l => (digitsToNat l).map (fun n => (n : Int))

/-- Resolution of one id parameter by PostgreSQL: an `int` is used as is; a `str`
token is cast to `integer` for the comparison with `document_id`, and a token that
is not an integer literal makes the statement fail. -/
def parseIdParam : SqlParam → Except PyError Int
  | SqlParam.pint n => .ok n
  | SqlParam.pstr s =>
    match pgStrToInt s with
    | some n => .ok n
    | none => .error PyError.invalidIds

def parseIds : List SqlParam → Except PyError (List Int)
  | [] => .ok []
  | p :: rest =>
    match parseIdParam p with
    | .ok n =>
      match parseIds rest with
      | .ok ns => .ok (n :: ns)
      | .error e => .error e
    | .error e => .error e

/-- Semantics of `SELECT * FROM documents WHERE document_id IN %s;` with the ids
tuple as parameter.  psycopg2 renders an empty tuple as `IN ()`, which PostgreSQL
rejects, so an empty id list is a statement failure, as is any non-integer token. -/
def runSelectDocs (docs : List DocRow) (ids : List SqlParam) : Except PyError (List Row) :=
  if ids.isEmpty then .error PyError.invalidIds
  else
    match parseIds ids with
    | .ok nums => .ok ((docs.filter (fun d => decide (d.document_id ∈ nums))).map rowToMap)
    | .error e => .error e

/-- Modelled from the spec: the deduplication uniqueness key of the `documents`
table is the (title, document_source) combination (§3 of the design); the schema
file declaring the constraint is not under `src/`, only the INSERT with
`ON CONFLICT DO NOTHING` that relies on it. -/
def conflictsWith (docs : List DocRow) (title document_source : Option String) : Bool :=
  docs.any (fun d => d.title == title && d.document_source == document_source)

/-- The ten scalar parameters of the metadata INSERT, in the order of
`metadata_fields`; a field missing from the request defaults to `None`. -/
structure DocScalars where
  title : Option String
  document_source : Option String
  fulltext : Option String
  abstract : Option String
  date : Option String
  entryintoforce : Option String
  fulltextlink : Option String
  sourcename : Option String
  sourcelink : Option String
  status : Option String
deriving DecidableEq, Repr

/-- The row inserted by the metadata statement: `fulltext_cleaned` is not among the
inserted columns and defaults to NULL; `document_id` is drawn from the sequence. -/
def insertedRow (did : Int) (d : DocScalars) : DocRow :=
  { document_id := did
    title := d.title
    document_source := d.document_source
    fulltext := d.fulltext
    fulltext_cleaned := none
    abstract := d.abstract
    date := d.date
    entryintoforce := d.entryintoforce
    fulltextlink := d.fulltextlink
    sourcename := d.sourcename
    sourcelink := d.sourcelink
    status := d.status }

/-- The statements passed to `PostgresQL.execute` by the repository. -/
inductive Stmt
  | selectDocsIn (ids : List SqlParam)
  | insertDocumentReturning (data : DocScalars)
deriving DecidableEq, Repr

/-- `PostgresQL.execute(statement, params)`: raises when `self.cursor is None`;
a statement with column metadata returns one dict per row (`some rows`), the
conflict-skipped INSERT returns its (empty) `RETURNING` result set. -/
def execute (stmt : Stmt) (st : PgState) : Except PyError (Option (List Row) × PgState) :=
  if st.connected then
    match stmt with
    | Stmt.selectDocsIn ids =>
      match runSelectDocs st.documents ids with
      | .ok rows => .ok (some rows, st)
      | .error e => .error e
    | Stmt.insertDocumentReturning data =>
      if conflictsWith st.documents data.title data.document_source then
        .ok (some [], st)
      else
        .ok (some [[(Col.document_id, FieldVal.vint st.nextId)]],
          { st with documents := st.documents ++ [insertedRow st.nextId data],
                    nextId := st.nextId + 1 })
  else .error PyError.notConnected

/-- `self.connection.commit()`. -/
def commitConn (st : PgState) : PgState := { st with trace := st.trace ++ [DbEvent.commit] }

/-- The rows of one child table. -/
def childRows (t : ChildTable) (st : PgState) : List (Int × String) :=
  match t with
  | ChildTable.authors => st.document_authors
  | ChildTable.areas => st.document_areas
  | ChildTable.keywords => st.document_keywords
  | ChildTable.subjects => st.document_subjects
  | ChildTable.participants => st.document_participants

/-- `INSERT INTO document_<t> (document_id, <value>) VALUES (%s, %s) ON CONFLICT DO
NOTHING` for one row of parameters: a duplicate (document_id, value) pair is
silently skipped. -/
def insertChildRow (t : ChildTable) (p : Int × String) (st : PgState) : PgState :=
  if p ∈ childRows t st then st
  else
    match t with
    | ChildTable.authors => { st with document_authors := st.document_authors ++ [p] }
    | ChildTable.areas => { st with document_areas := st.document_areas ++ [p] }
    | ChildTable.keywords => { st with document_keywords := st.document_keywords ++ [p] }
    | ChildTable.subjects => { st with document_subjects := st.document_subjects ++ [p] }
    | ChildTable.participants => { st with document_participants := st.document_participants ++ [p] }

/-- One cursor-level execution of the child-insert statement inside `executemany`. -/
def execOne (t : ChildTable) (st : PgState) (p : Int × String) : PgState :=
  insertChildRow t p { st with trace := st.trace ++ [DbEvent.execChild t p] }

/-- `PostgresQL.executemany(statement, values)`: raises when disconnected; runs the
statement once per row of `values`, commits, and returns `True`. -/
def executemany (t : ChildTable) (values : List (Int × String)) (st : PgState) :
    Except PyError (Bool × PgState) :=
  if st.connected then .ok (true, commitConn (values.foldl (execOne t) st))
  else .error PyError.notConnected

/-- `PostgresQL.connect`: the psycopg2 connection attempt (an external effect) is
given as `outcome`; on failure the `except` branch only sets `self.cursor = None`,
so `connect` itself never raises. -/
def connect (outcome : Except PyError Unit) (st : PgState) : Except PyError PgState :=
  match outcome with
  | .ok _ => .ok { st with connected := true }
  | .error _ => .ok { st with connected := false }

/-- The `(success, payload)` payload of the repository: a list of document dicts on
success, the `{'Error': ...}` dict on failure. -/
inductive DbPayload
  | rows (rs : List Row)
  | err (msg : String)
deriving DecidableEq, Repr

def errInvalidIds : DbPayload := DbPayload.err "You provided invalid document ids."

/-- Output cleaning of one fetched row (lines 118-121 of `postgresql.py`): truncate
a non-null `fulltext_cleaned` to its first 500 characters, then `pop` the
`fulltext` key.  Runs outside the `try` block, so its Python failure modes
(`KeyError` on a missing key, `TypeError` on slicing a non-string) are modelled
as errors even though `SELECT *` rows never trigger them. -/
def cleanRowE (r : Row) : Except PyError Row :=
  match lookupKey r Col.fulltext_cleaned with
  | none => .error PyError.keyError
  | some FieldVal.vnull => popKey r Col.fulltext
  | some (FieldVal.vstr s) =>
    popKey (setKey r Col.fulltext_cleaned (FieldVal.vstr (pySlice500 s))) Col.fulltext
  | some _ => .error PyError.typeError

def cleanRows : List Row → Except PyError (List Row)
  | [] => .ok []
  | r :: rest =>
    match cleanRowE r with
    | .ok r2 =>
      match cleanRows rest with
      | .ok rest2 => .ok (r2 :: rest2)
      | .error e => .error e
    | .error e => .error e

/-- `PostgresQL.get_documents_from_db`: runs the `IN (...)` lookup inside
`try/except` (any statement failure, including `NotConnectedError`, becomes the
`(False, {'Error': ...})` pair), then cleans the output rows outside the `try`.
Iterating a `None` result would be a `TypeError` (unreachable for a SELECT). -/
def get_documents_from_db (st : PgState) (document_ids : List SqlParam) :
    Except PyError ((Bool × DbPayload) × PgState) :=
  match execute (Stmt.selectDocsIn document_ids) st with
  | .error _ => .ok ((false, errInvalidIds), st)
  | .ok (none, _) => .error PyError.typeError
  | .ok (some documents, st2) =>
    match cleanRows documents with
    | .ok cleaned => .ok ((true, DbPayload.rows cleaned), st2)
    | .error e => .error e

/-- The full set of child-set values accepted by `add_document_to_db`
(`document_data.get(..., [])` defaults to the empty list). -/
structure DocData extends DocScalars where
  authors : List String
  areas : List String
  keywords : List String
  subjects : List String
  participants : List String
deriving DecidableEq, Repr

/-- `PostgresQL.add_document_to_db`: inserts the scalar row with
`ON CONFLICT DO NOTHING RETURNING document_id`, commits, reads
`returned_data[0]['document_id']` (an `IndexError` when the conflict-skip produced
no row), then batch-inserts the five child sets. -/
def add_document_to_db (document_data : DocData) (st : PgState) : Except PyError PgState := do
  let (returned_data, st1) ←
    execute (Stmt.insertDocumentReturning document_data.toDocScalars) st
  let st2 := commitConn st1
  let document_id ←
    match returned_data with
    | none => Except.error PyError.typeError
    | some [] => Except.error PyError.indexError
    | some (r :: _) =>
      match lookupKey r Col.document_id with
      | some (FieldVal.vint n) => Except.ok n
      | some _ => Except.error PyError.typeError
      | none => Except.error PyError.keyError
  let (_, st3) ← executemany ChildTable.authors
    (document_data.authors.map (fun a => (document_id, a))) st2
  let (_, st4) ← executemany ChildTable.areas
    (document_data.areas.map (fun a => (document_id, a))) st3
  let (_, st5) ← executemany ChildTable.keywords
    (document_data.keywords.map (fun a => (document_id, a))) st4
  let (_, st6) ← executemany ChildTable.subjects
    (document_data.subjects.map (fun a => (document_id, a))) st5
  let (_, st7) ← executemany ChildTable.participants
    (document_data.participants.map (fun a => (document_id, a))) st6
  return st7

/-! ## The orchestrator (routes of `documents.py`) -/

/-- The JSON body the similarity service answers with, as consumed by
`get_similar_documents`: the optional `similar_documents` id list, the optional
`similarities` list of (id, score) pairs, and the remaining payload (e.g. a remote
error shape), carried opaquely. -/
structure RemoteSimBody where
  similar_documents : Option (List Int)
  similarities : Option (List (Int × Score))
  extra : List (String × String)
deriving DecidableEq, Repr

/-- A JSON response body produced by the documents blueprint. -/
inductive RespBody
  | docsWrap (p : DbPayload)
  | passthrough (p : DbPayload)
  | message (m : String)
  | remote (b : RemoteSimBody)
deriving DecidableEq, Repr

/-- An HTTP response: status code and JSON body. -/
structure HttpResponse where
  status : Nat
  body : RespBody
deriving DecidableEq, Repr

/-- The core of `get_documents` (GET /documents) after query-string parsing: caps
the token list at 100 ids, delegates to the repository, and wraps the result
under a `documents` key on success (200) or passes the error dict through (400). -/
def get_documents_core (st : PgState) (tokens : List String) : Except PyError HttpResponse :=
  match get_documents_from_db st ((tokens.take 100).map SqlParam.pstr) with
  | .error e => .error e
  | .ok ((success, output), _) =>
    if success then .ok ⟨200, RespBody.docsWrap output⟩
    else .ok ⟨400, RespBody.passthrough output⟩

/-- `get_documents` (GET /documents): the `document_ids` query parameter is split
on commas into raw tokens; a missing parameter yields the `Message` dict. -/
def get_documents_route (st : PgState) (document_ids : Option String) :
    Except PyError HttpResponse :=
  match document_ids with
  | none =>
    .ok ⟨200, RespBody.message
      "You need to provide query param \"document_ids\" : [comma separated set of documents ids]"⟩
  | some s => get_documents_core st (s.splitOn ",")

/-- `retrieve_document` (GET /documents/id): fetches the single-element id list. -/
def retrieve_document (st : PgState) (doc_id : String) : Except PyError HttpResponse :=
  match get_documents_from_db st [SqlParam.pstr doc_id] with
  | .error e => .error e
  | .ok ((success, output), _) =>
    if success then .ok ⟨200, RespBody.docsWrap output⟩
    else .ok ⟨400, RespBody.passthrough output⟩

/-- The dict comprehension `{doc_id : sim for doc_id, sim in similarities}`:
insertion with overwrite, left to right. -/
def pyDictSet : List (Int × Score) → Int → Score → List (Int × Score)
  | [], k, v => [(k, v)]
  | (k2, v2) :: rest, k, v =>
    if k2 = k then (k, v) :: rest else (k2, v2) :: pyDictSet rest k v

def pyDict (pairs : List (Int × Score)) : List (Int × Score) :=
  pairs.foldl (fun d p => pyDictSet d p.1 p.2) []

/-- Python dict lookup on the built dictionary (`None`-free: callers raise
`KeyError` on a miss). -/
def pyDictGet? : List (Int × Score) → Int → Option Score
  | [], _ => none
  | (k2, v2) :: rest, k => if k2 = k then some v2 else pyDictGet? rest k

/-- The join loop of `get_similar_documents`: for each fetched document dict, read
`doc['document_id']` and set `doc['similarity']` to
`similarities_dictionary[document_id]`; a missing dictionary key (or a missing /
non-integer `document_id`, on which the int-keyed dictionary lookup also misses)
raises `KeyError`. -/
def attachSims (dict : List (Int × Score)) : List Row → Except PyError (List Row)
  | [] => .ok []
  | doc :: rest =>
    match lookupKey doc Col.document_id with
    | some (FieldVal.vint document_id) =>
      match pyDictGet? dict document_id with
      | some sim =>
        match attachSims dict rest with
        | .ok rest2 => .ok (setKey doc Col.similarity (FieldVal.vscore sim) :: rest2)
        | .error e => .error e
      | none => .error PyError.keyError
    | _ => .error PyError.keyError

/-- `get_similar_documents` (GET /documents/id/similar), from the point where the
remote similarity response body is in hand: with a `similar_documents` key the
candidate ids are fetched from the store and each document is joined with its
score; without it the whole remote payload is surfaced verbatim with status 400.
A `success` payload that is not a row list would be iterated as a dict of keys and
fail with `TypeError` (unreachable). -/
def get_similar_documents (st : PgState) (body : RemoteSimBody) :
    Except PyError HttpResponse :=
  match body.similar_documents with
  | some documents_ids =>
    let similarities := body.similarities.getD []
    let similarities_dictionary := pyDict similarities
    match get_documents_from_db st (documents_ids.map SqlParam.pint) with
    | .error e => .error e
    | .ok ((success, output), _) =>
      if success then
        match output with
        | DbPayload.rows out =>
          match attachSims similarities_dictionary out with
          | .ok out2 => .ok ⟨200, RespBody.docsWrap (DbPayload.rows out2)⟩
          | .error e => .error e
        | DbPayload.err _ => .error PyError.typeError
      else .ok ⟨400, RespBody.passthrough output⟩
  | none => .ok ⟨400, RespBody.remote body⟩

/-! ## Derived shapes and concrete sample inputs -/

/-- The `fulltext_cleaned` value after output cleaning. -/
def truncV : Option String → FieldVal
  | none => FieldVal.vnull
  | some s => FieldVal.vstr (pySlice500 s)

/-- The dict produced for one stored document by `get_documents_from_db`'s cleaning
pass: the `SELECT *` row without its `fulltext` entry and with `fulltext_cleaned`
truncated. -/
def cleanedRow (d : DocRow) : Row :=
  [(Col.document_id, FieldVal.vint d.document_id),
   (Col.title, optV d.title),
   (Col.document_source, optV d.document_source),
   (Col.fulltext_cleaned, truncV d.fulltext_cleaned),
   (Col.abstract, optV d.abstract),
   (Col.date, optV d.date),
   (Col.entryintoforce, optV d.entryintoforce),
   (Col.fulltextlink, optV d.fulltextlink),
   (Col.sourcename, optV d.sourcename),
   (Col.sourcelink, optV d.sourcelink),
   (Col.status, optV d.status)]

/-- A stored document used by the concrete instances below. -/
def sampleDoc : DocRow :=
  { document_id := 1
    title := some "Doc"
    document_source := some "eurlex"
    fulltext := some "the full text body"
    fulltext_cleaned := some "hello"
    abstract := none
    date := none
    entryintoforce := none
    fulltextlink := none
    sourcename := none
    sourcelink := none
    status := none }

/-- A connected store holding `sampleDoc`. -/
def sampleSt : PgState :=
  { connected := true
    documents := [sampleDoc]
    document_authors := []
    document_areas := []
    document_keywords := []
    document_subjects := []
    document_participants := []
    nextId := 2
    trace := [] }

/-- A disconnected store (failed or absent `connect`). -/
def emptyDisconnectedSt : PgState :=
  { connected := false
    documents := []
    document_authors := []
    document_areas := []
    document_keywords := []
    document_subjects := []
    document_participants := []
    nextId := 1
    trace := [] }

/-- Document data whose (title, document_source) collides with `sampleDoc`. -/
def conflictingData : DocData :=
  { title := some "Doc"
    document_source := some "eurlex"
    fulltext := none
    abstract := none
    date := none
    entryintoforce := none
    fulltextlink := none
    sourcename := none
    sourcelink := none
    status := none
    authors := ["A"]
    areas := []
    keywords := []
    subjects := []
    participants := [] }

/-- The cleaned dict for `sampleDoc`, written out. -/
def sampleCleanedRow : Row :=
  [(Col.document_id, FieldVal.vint 1),
   (Col.title, FieldVal.vstr "Doc"),
   (Col.document_source, FieldVal.vstr "eurlex"),
   (Col.fulltext_cleaned, FieldVal.vstr (pySlice500 "hello")),
   (Col.abstract, FieldVal.vnull),
   (Col.date, FieldVal.vnull),
   (Col.entryintoforce, FieldVal.vnull),
   (Col.fulltextlink, FieldVal.vnull),
   (Col.sourcename, FieldVal.vnull),
   (Col.sourcelink, FieldVal.vnull),
   (Col.status, FieldVal.vnull)]

/-- A remote similarity body resolving `sampleDoc` with one score. -/
def sampleSimBody : RemoteSimBody :=
  { similar_documents := some [1]
    similarities := some [(1, "0.73")]
    extra := [] }

/-- A remote similarity error body (no `similar_documents` key). -/
def sampleSimErrBody : RemoteSimBody :=
  { similar_documents := none
    similarities := none
    extra := [("Error", "document is not in the database")] }

/-! ## Association-list and cleaning lemmas -/

theorem lookupKey_setKey_self (r : Row) (k : Col) (v : FieldVal) :
    lookupKey (setKey r k v) k = some v := by
  induction r with
  | nil => simp [setKey, lookupKey]
  | cons p rest ih =>
    obtain ⟨k2, v2⟩ := p
    by_cases h : k2 = k
    · simp [setKey, lookupKey, h]
    · simp [setKey, lookupKey, h, ih]

theorem lookupKey_setKey_ne (r : Row) (k k2 : Col) (v : FieldVal) (h : k2 ≠ k) :
    lookupKey (setKey r k v) k2 = lookupKey r k2 := by
  induction r with
  | nil => simp [setKey, lookupKey, Ne.symm h]
  | cons p rest ih =>
    obtain ⟨k3, v3⟩ := p
    by_cases h3 : k3 = k
    · subst h3
      simp [setKey, lookupKey, Ne.symm h, h]
    · by_cases h4 : k3 = k2
      · simp [setKey, lookupKey, h3, h4, h]
      · simp [setKey, lookupKey, h3, h4, ih]

theorem cleanRowE_rowToMap (d : DocRow) : cleanRowE (rowToMap d) = .ok (cleanedRow d) := by
  rcases d with ⟨did, t, src, ft, ftc, ab, dt, ef, fl, sn, sl, stt⟩
  cases ftc <;> rfl

theorem cleanRows_map_rowToMap (ds : List DocRow) :
    cleanRows (ds.map rowToMap) = .ok (ds.map cleanedRow) := by
  induction ds with
  | nil => rfl
  | cons d rest ih => simp [cleanRows, cleanRowE_rowToMap, ih]

/-! ## Shape lemmas for the read path -/

theorem runSelectDocs_ok (docs : List DocRow) (ids : List SqlParam) (rows : List Row)
    (h : runSelectDocs docs ids = .ok rows) :
    ∃ ds : List DocRow, (∀ d ∈ ds, d ∈ docs) ∧ rows = ds.map rowToMap := by
  unfold runSelectDocs at h
  by_cases he : ids.isEmpty <;> simp [he] at h
  rcases hp : parseIds ids with e | nums <;> rw [hp] at h <;> simp at h
  exact ⟨docs.filter (fun d => decide (d.document_id ∈ nums)),
    fun d hd => List.mem_of_mem_filter hd, h.symm⟩

theorem execute_select_ok (st : PgState) (ids : List SqlParam)
    (orows : Option (List Row)) (st2 : PgState)
    (h : execute (Stmt.selectDocsIn ids) st = .ok (orows, st2)) :
    st2 = st ∧ ∃ rows, runSelectDocs st.documents ids = .ok rows ∧ orows = some rows := by
  unfold execute at h
  by_cases hc : st.connected = true <;> simp [hc] at h
  rcases hr : runSelectDocs st.documents ids with e | rows <;> rw [hr] at h <;> simp at h
  exact ⟨h.2.symm, rows, rfl, h.1.symm⟩

/-- Every call of `get_documents_from_db` returns either the failure pair or the
success pair with cleaned rows of stored documents. -/
theorem gddb_cases (st : PgState) (ids : List SqlParam) :
    get_documents_from_db st ids = .ok ((false, errInvalidIds), st) ∨
    ∃ ds : List DocRow, (∀ d ∈ ds, d ∈ st.documents) ∧
      get_documents_from_db st ids = .ok ((true, DbPayload.rows (ds.map cleanedRow)), st) := by
  rcases hex : execute (Stmt.selectDocsIn ids) st with e | ⟨orows, st2⟩
  · left
    simp [get_documents_from_db, hex]
  · obtain ⟨rfl, rows, hrun, rfl⟩ := execute_select_ok st ids orows st2 hex
    obtain ⟨ds, hsub, hrows⟩ := runSelectDocs_ok st2.documents ids rows hrun
    subst hrows
    right
    exact ⟨ds, hsub, by simp [get_documents_from_db, hex, cleanRows_map_rowToMap]⟩

/-! ## Lemmas about the similarity join loop -/

theorem attachSims_ok_mem (dict : List (Int × Score)) :
    ∀ (rows out : List Row), attachSims dict rows = .ok out →
      ∀ r ∈ out, ∃ did : Int, ∃ s : Score,
        lookupKey r Col.document_id = some (FieldVal.vint did) ∧
        pyDictGet? dict did = some s ∧
        lookupKey r Col.similarity = some (FieldVal.vscore s)
  | [], out => by
    intro h r hr
    simp [attachSims] at h
    subst h
    simp at hr
  | doc :: rest, out => by
    intro h r hr
    rcases hl : lookupKey doc Col.document_id with _ | v
    · simp only [attachSims, hl] at h
      exact absurd h (by simp)
    · cases v with
      | vint did =>
        simp only [attachSims, hl] at h
        rcases hd : pyDictGet? dict did with _ | sim <;> simp only [hd] at h
        · exact absurd h (by simp)
        · rcases hrec : attachSims dict rest with e | rest2 <;> simp only [hrec] at h
          · exact absurd h (by simp)
          · injection h with h2
            subst h2
            rcases List.mem_cons.mp hr with hEq | hTail
            · subst hEq
              refine ⟨did, sim, ?_, hd, ?_⟩
              · rw [lookupKey_setKey_ne _ _ _ _ (by decide)]
                exact hl
              · exact lookupKey_setKey_self doc Col.similarity (FieldVal.vscore sim)
            · exact attachSims_ok_mem dict rest rest2 hrec r hTail
      | vnull =>
        simp only [attachSims, hl] at h
        exact absurd h (by simp)
      | vstr s =>
        simp only [attachSims, hl] at h
        exact absurd h (by simp)
      | vscore x =>
        simp only [attachSims, hl] at h
        exact absurd h (by simp)

theorem attachSims_bad (dict : List (Int × Score)) :
    ∀ rows : List Row,
      (∃ r ∈ rows, ∀ did : Int,
          lookupKey r Col.document_id = some (FieldVal.vint did) → pyDictGet? dict did = none) →
      ∃ e : PyError, attachSims dict rows = .error e
  | [] => by rintro ⟨r, hr, _⟩; simp at hr
  | doc :: rest => by
    rintro ⟨r, hr, hbad⟩
    rcases List.mem_cons.mp hr with hEq | hTail
    · subst hEq
      rcases hl : lookupKey r Col.document_id with _ | v
      · exact ⟨PyError.keyError, by simp [attachSims, hl]⟩
      · cases v with
        | vint did => exact ⟨PyError.keyError, by simp [attachSims, hl, hbad did hl]⟩
        | vnull => exact ⟨PyError.keyError, by simp [attachSims, hl]⟩
        | vstr s => exact ⟨PyError.keyError, by simp [attachSims, hl]⟩
        | vscore x => exact ⟨PyError.keyError, by simp [attachSims, hl]⟩
    · obtain ⟨e, he⟩ := attachSims_bad dict rest ⟨r, hTail, hbad⟩
      rcases hl : lookupKey doc Col.document_id with _ | v
      · exact ⟨PyError.keyError, by simp [attachSims, hl]⟩
      · cases v with
        | vint did =>
          rcases hd : pyDictGet? dict did with _ | sim
          · exact ⟨PyError.keyError, by simp [attachSims, hl, hd]⟩
          · exact ⟨e, by simp [attachSims, hl, hd, he]⟩
        | vnull => exact ⟨PyError.keyError, by simp [attachSims, hl]⟩
        | vstr s => exact ⟨PyError.keyError, by simp [attachSims, hl]⟩
        | vscore x => exact ⟨PyError.keyError, by simp [attachSims, hl]⟩

/-! ## Lemmas about `executemany` -/

theorem insertChildRow_trace (t : ChildTable) (p : Int × String) (st : PgState) :
    (insertChildRow t p st).trace = st.trace := by
  unfold insertChildRow
  split
  · rfl
  · cases t <;> rfl

theorem insertChildRow_documents (t : ChildTable) (p : Int × String) (st : PgState) :
    (insertChildRow t p st).documents = st.documents := by
  unfold insertChildRow
  split
  · rfl
  · cases t <;> rfl

theorem execOne_trace (t : ChildTable) (st : PgState) (p : Int × String) :
    (execOne t st p).trace = st.trace ++ [DbEvent.execChild t p] := by
  unfold execOne
  rw [insertChildRow_trace]

theorem foldl_execOne_trace (t : ChildTable) (values : List (Int × String)) :
    ∀ st : PgState,
      (values.foldl (execOne t) st).trace =
        st.trace ++ values.map (fun p => DbEvent.execChild t p) := by
  induction values with
  | nil => intro st; simp
  | cons p ps ih =>
    intro st
    simp only [List.foldl_cons, List.map_cons]
    rw [ih, execOne_trace]
    simp

/-! ## Claim theorems -/

/-- C1: evaluation of the code at the conflicting input.  Inserting document data
whose (title, document_source) collides with a stored document makes the
conflict-skipped `RETURNING` result empty, and `returned_data[0]['document_id']`
then raises `IndexError` — the call is not the error-free no-op the design
describes (no child insert is performed, but an error is raised). -/
theorem c1_conflict_insert_raises_indexerror :
    add_document_to_db conflictingData sampleSt = .error PyError.indexError := by rfl

/-- C2 (counterexample): `add_document_to_db` does raise across the orchestrator
boundary — on a disconnected store the `NotConnectedError` of `execute`
propagates out uncaught; the operation also returns no `(success, payload)`
pair on any path. -/
theorem c2_add_document_raises_when_disconnected :
    add_document_to_db conflictingData emptyDisconnectedSt = .error PyError.notConnected := by rfl

/-- C2 (amended): the never-raise propagation policy holds for
`get_documents_from_db`, the one Store/Repository operation the orchestrator
calls: every call returns an explicit `(success, payload)` pair and never
raises. -/
theorem c2_get_documents_never_raises (st : PgState) (ids : List SqlParam) :
    ∃ p : (Bool × DbPayload) × PgState, get_documents_from_db st ids = .ok p := by
  rcases gddb_cases st ids with h | ⟨ds, _, h⟩ <;> exact ⟨_, h⟩

/-- C3: for an id-token list longer than 100 elements, `get_documents` performs
the lookup as if only the first 100 tokens were given — same response, no
error for exceeding the bound. -/
theorem c3_hundred_id_truncation (st : PgState) (tokens : List String)
    (h : 100 < tokens.length) :
    get_documents_core st tokens = get_documents_core st (tokens.take 100) := by
  unfold get_documents_core
  rw [List.take_take, Nat.min_self]

/-- Concrete instance of C3 at a 101-token list. -/
theorem c3_hundred_id_truncation_witness :
    100 < (List.replicate 101 "7").length ∧
    get_documents_core emptyDisconnectedSt (List.replicate 101 "7") =
      get_documents_core emptyDisconnectedSt ((List.replicate 101 "7").take 100) :=
  ⟨by decide, c3_hundred_id_truncation emptyDisconnectedSt (List.replicate 101 "7") (by decide)⟩

/-- C4: every document mapping of a successful fetch has no `fulltext` key, and a
non-null `fulltext_cleaned` value is at most 500 characters and a prefix of the
value stored for that document. -/
theorem c4_output_sanitized (st : PgState) (ids : List SqlParam) (rs : List Row)
    (st2 : PgState)
    (h : get_documents_from_db st ids = .ok ((true, DbPayload.rows rs), st2)) :
    ∀ r ∈ rs, lookupKey r Col.fulltext = none ∧
      ∀ s : String, lookupKey r Col.fulltext_cleaned = some (FieldVal.vstr s) →
        s.length ≤ 500 ∧ ∃ d ∈ st.documents, ∃ stored : String,
          lookupKey r Col.document_id = some (FieldVal.vint d.document_id) ∧
          d.fulltext_cleaned = some stored ∧ s.data <+: stored.data := by
  rcases gddb_cases st ids with hc | ⟨ds, hsub, hc⟩
  · rw [hc] at h
    simp at h
  · rw [hc] at h
    have hrs : ds.map cleanedRow = rs := by
      simp only [Except.ok.injEq, Prod.mk.injEq, DbPayload.rows.injEq] at h
      tauto
    subst hrs
    intro r hr
    obtain ⟨d, hd, rfl⟩ := List.mem_map.mp hr
    refine ⟨rfl, ?_⟩
    intro s hs
    have hlk : lookupKey (cleanedRow d) Col.fulltext_cleaned = some (truncV d.fulltext_cleaned) := rfl
    rw [hlk] at hs
    rcases hfc : d.fulltext_cleaned with _ | stored
    · rw [hfc] at hs
      simp [truncV] at hs
    · rw [hfc] at hs
      simp only [truncV, Option.some.injEq, FieldVal.vstr.injEq] at hs
      subst hs
      constructor
      · show (stored.data.take 500).length ≤ 500
        rw [List.length_take]
        exact min_le_left _ _
      · refine ⟨d, hsub d hd, stored, rfl, hfc, ?_⟩
        show stored.data.take 500 <+: stored.data
        exact List.take_prefix 500 stored.data

/-- Concrete instance of C4 at a one-document store. -/
theorem c4_output_sanitized_witness :
    get_documents_from_db sampleSt [SqlParam.pstr "1"] =
      .ok ((true, DbPayload.rows [sampleCleanedRow]), sampleSt) ∧
    ∀ r ∈ [sampleCleanedRow], lookupKey r Col.fulltext = none ∧
      ∀ s : String, lookupKey r Col.fulltext_cleaned = some (FieldVal.vstr s) →
        s.length ≤ 500 ∧ ∃ d ∈ sampleSt.documents, ∃ stored : String,
          lookupKey r Col.document_id = some (FieldVal.vint d.document_id) ∧
          d.fulltext_cleaned = some stored ∧ s.data <+: stored.data :=
  ⟨by rfl, c4_output_sanitized sampleSt [SqlParam.pstr "1"] [sampleCleanedRow] sampleSt (by rfl)⟩

/-- C5: when the remote response carries `similar_documents` and the fetch
succeeds, every returned document's `similarity` field equals the score its id
is paired with in the dictionary built from the remote `similarities` list; a
fetched document whose id has no score is a fatal `KeyError` for the whole
response, not a defaulted value. -/
theorem c5_similarity_join (st : PgState) (body : RemoteSimBody) (ids : List Int)
    (h : body.similar_documents = some ids) :
    (∀ out : List Row,
      get_similar_documents st body = .ok ⟨200, RespBody.docsWrap (DbPayload.rows out)⟩ →
      ∀ r ∈ out, ∃ did : Int, ∃ s : Score,
        lookupKey r Col.document_id = some (FieldVal.vint did) ∧
        pyDictGet? (pyDict (body.similarities.getD [])) did = some s ∧
        lookupKey r Col.similarity = some (FieldVal.vscore s)) ∧
    (∀ (res : List Row) (st2 : PgState),
      get_documents_from_db st (ids.map SqlParam.pint) = .ok ((true, DbPayload.rows res), st2) →
      (∃ r ∈ res, ∀ did : Int,
          lookupKey r Col.document_id = some (FieldVal.vint did) →
          pyDictGet? (pyDict (body.similarities.getD [])) did = none) →
      ∃ e : PyError, get_similar_documents st body = .error e) := by
  constructor
  · intro out hok r hr
    simp only [get_similar_documents, h] at hok
    rcases hdb : get_documents_from_db st (ids.map SqlParam.pint)
      with e | ⟨⟨success, output⟩, st2⟩ <;> simp only [hdb] at hok
    · exact absurd hok (by simp)
    · cases success
      · simp at hok
      · cases output with
        | err m => simp at hok
        | rows out0 =>
          rcases hat : attachSims (pyDict (body.similarities.getD [])) out0 with e2 | out2 <;>
            simp only [hat] at hok
          · simp at hok
          · have hout : out2 = out := by simpa using hok
            subst hout
            exact attachSims_ok_mem (pyDict (body.similarities.getD [])) out0 out2 hat r hr
  · intro res st2 hdb hbadex
    obtain ⟨e, he⟩ := attachSims_bad (pyDict (body.similarities.getD [])) res hbadex
    exact ⟨e, by simp [get_similar_documents, h, hdb, he]⟩

/-- Concrete instance of C5 at a one-document store with one scored id. -/
theorem c5_similarity_join_witness :
    sampleSimBody.similar_documents = some [1] ∧
    ((∀ out : List Row,
      get_similar_documents sampleSt sampleSimBody =
        .ok ⟨200, RespBody.docsWrap (DbPayload.rows out)⟩ →
      ∀ r ∈ out, ∃ did : Int, ∃ s : Score,
        lookupKey r Col.document_id = some (FieldVal.vint did) ∧
        pyDictGet? (pyDict (sampleSimBody.similarities.getD [])) did = some s ∧
        lookupKey r Col.similarity = some (FieldVal.vscore s)) ∧
    (∀ (res : List Row) (st2 : PgState),
      get_documents_from_db sampleSt (([1] : List Int).map SqlParam.pint) =
        .ok ((true, DbPayload.rows res), st2) →
      (∃ r ∈ res, ∀ did : Int,
          lookupKey r Col.document_id = some (FieldVal.vint did) →
          pyDictGet? (pyDict (sampleSimBody.similarities.getD [])) did = none) →
      ∃ e : PyError, get_similar_documents sampleSt sampleSimBody = .error e)) :=
  ⟨rfl, c5_similarity_join sampleSt sampleSimBody [1] rfl⟩

/-- C6: when the remote similarity response has no `similar_documents` key, the
route answers with exactly the remote body, unmodified, and status 400. -/
theorem c6_remote_error_passthrough (st : PgState) (body : RemoteSimBody)
    (h : body.similar_documents = none) :
    get_similar_documents st body = .ok ⟨400, RespBody.remote body⟩ := by
  simp [get_similar_documents, h]

/-- Concrete instance of C6 at a remote error body. -/
theorem c6_remote_error_passthrough_witness :
    sampleSimErrBody.similar_documents = none ∧
    get_similar_documents emptyDisconnectedSt sampleSimErrBody =
      .ok ⟨400, RespBody.remote sampleSimErrBody⟩ :=
  ⟨rfl, c6_remote_error_passthrough emptyDisconnectedSt sampleSimErrBody rfl⟩

/-- C7: a connected `executemany` over the empty row list executes no statement
(the commit is the only new cursor event, and no table changes) yet reports
success; in general it runs the statement once per row of parameters and then
commits. -/
theorem c7_executemany_empty_rows (t : ChildTable) (values : List (Int × String))
    (st : PgState) (h : st.connected = true) :
    (executemany t [] st = .ok (true, commitConn st) ∧
      (commitConn st).trace = st.trace ++ [DbEvent.commit] ∧
      (commitConn st).documents = st.documents ∧
      ∀ t2 : ChildTable, childRows t2 (commitConn st) = childRows t2 st) ∧
    ∃ st2 : PgState, executemany t values st = .ok (true, st2) ∧
      st2.trace = st.trace ++ values.map (fun p => DbEvent.execChild t p) ++ [DbEvent.commit] := by
  constructor
  · refine ⟨by simp [executemany, h], rfl, rfl, ?_⟩
    intro t2
    cases t2 <;> rfl
  · refine ⟨commitConn (values.foldl (execOne t) st), by simp [executemany, h], ?_⟩
    show (values.foldl (execOne t) st).trace ++ [DbEvent.commit] = _
    rw [foldl_execOne_trace, List.append_assoc]

/-- Concrete instance of C7 at a connected store. -/
theorem c7_executemany_empty_rows_witness :
    sampleSt.connected = true ∧
    ((executemany ChildTable.authors [] sampleSt = .ok (true, commitConn sampleSt) ∧
      (commitConn sampleSt).trace = sampleSt.trace ++ [DbEvent.commit] ∧
      (commitConn sampleSt).documents = sampleSt.documents ∧
      ∀ t2 : ChildTable, childRows t2 (commitConn sampleSt) = childRows t2 sampleSt) ∧
    ∃ st2 : PgState, executemany ChildTable.authors [(1, "A")] sampleSt = .ok (true, st2) ∧
      st2.trace = sampleSt.trace ++
        ([(1, "A")] : List (Int × String)).map (fun p => DbEvent.execChild ChildTable.authors p) ++
        [DbEvent.commit]) :=
  ⟨rfl, c7_executemany_empty_rows ChildTable.authors [(1, "A")] sampleSt rfl⟩

/-- C8: a failed `connect` leaves the store disconnected (no cursor) without
raising, and every `execute` or `executemany` call in that state fails with the
not-connected error rather than silently doing nothing. -/
theorem c8_failed_connect_then_not_connected (e : PyError) (st : PgState) (stmt : Stmt)
    (t : ChildTable) (values : List (Int × String)) :
    connect (.error e) st = .ok { st with connected := false } ∧
    ({ st with connected := false } : PgState).connected = false ∧
    execute stmt { st with connected := false } = .error PyError.notConnected ∧
    executemany t values { st with connected := false } = .error PyError.notConnected :=
  ⟨rfl, rfl, rfl, rfl⟩

/-- C9: `retrieve_document` (GET /documents/id) produces exactly the response of
the list route given the single-element id list. -/
theorem c9_single_id_degenerate (st : PgState) (doc_id : String) :
    retrieve_document st doc_id = get_documents_core st [doc_id] := rfl

/-- C10: fetching with the empty id list is a statement failure (`IN ()` is
rejected), surfaced as the `(False, {'Error': ...})` pair, not as a successful
empty result. -/
theorem c10_empty_id_list_failure (st : PgState) :
    get_documents_from_db st [] = .ok ((false, errInvalidIds), st) := by
  unfold get_documents_from_db execute
  by_cases hc : st.connected = true <;> simp [hc, runSelectDocs]

end ELens
